import Mathlib

/-!
Shallow embedding of `src/matrun.py`: a helper that composes and launches
MATLAB command lines.

Modelling choices:
* A Python `dict` is an association list (`List (String × Value)`) that keeps
  insertion order, as CPython dicts do; `{**a, **b}` is `dictMerge a b`.
* Option values (`Union[bool, str, int, float]` in the source, but Python does
  not enforce the annotation) are the inductive `Value`; a float is carried
  together with its decimal rendering (Python's `str(v)`), since the code only
  ever interpolates it into a string; `Value.other` stands for a value of any
  other Python type, which `set_options` accepts and
  `_build_options_parameter` later rejects.
* `raise` is modelled with `Except`: each `raise` site becomes an `Err`
  constructor carrying the formatted message string.
* The filesystem probe `os.path.isfile` is a parameter `fs : String → Bool`;
  `subprocess.call` is modelled by returning the composed command string as
  the `Except.ok` payload (an `Except.error` result means no command string
  was ever handed to `subprocess.call`).
-/

namespace Matrun

/-- A value stored for a command-line option: Python `bool`, `str`, `int`,
`float` (kept with its decimal rendering `str(v)`), or a value of any other
Python type. -/
inductive Value where
  | bool (b : Bool)
  | str (s : String)
  | int (n : Int)
  | float (rendering : String)
  | other
deriving DecidableEq, Repr

/-- A Python dict of options: an insertion-ordered association list. -/
abbrev Dict := List (String × Value)

/-- The keys of a dict, in insertion order. -/
def keys (d : Dict) : List String := d.map Prod.fst

/-- `d[k]` lookup: the value of the first entry whose key is `k` (a CPython
dict holds each key once, so this is the dict's value for `k`). -/
def dictGet : Dict → String → Option Value
  | [], _ => none
  | p :: t, k => if p.1 = k then some p.2 else dictGet t k

/-- Python `{**a, **b}`: keys of `a` keep their position but take `b`'s value
when `b` also binds them; keys of `b` not in `a` follow, in `b`'s order. -/
def dictMerge (a b : Dict) : Dict :=
  (a.map (fun p => (p.1, (dictGet b p.1).getD p.2))) ++
    b.filter (fun p => !((keys a).contains p.1))

/-- Python `str.join`: `sep.join(parts)`. -/
def strJoin (sep : String) : List String → String
  | [] => ""
  | [s] => s
  | s :: rest => s ++ sep ++ strJoin sep rest

/-- Python `repr` of a string as it appears inside `repr` of a list or tuple
(the source only ever formats flag names, which contain no quotes). -/
def pyStrRepr (s : String) : String := "'" ++ s ++ "'"

/-- Python `str(list_of_strings)`, e.g. `['foo', 'bar']`. -/
def pyListRepr (l : List String) : String :=
  "[" ++ strJoin ", " (l.map pyStrRepr) ++ "]"

/-- Python `str(tuple_of_strings)` for tuples of two or more elements,
e.g. `('nodesktop', 'sd')`. -/
def pyTupleRepr (l : List String) : String :=
  "(" ++ strJoin ", " (l.map pyStrRepr) ++ ")"

/-- `option_defaults` of `src/matrun.py` lines 27-79: the registry of valid
`matlab.exe` flags, in declaration order, each defaulting to `False`. -/
def option_defaults : Dict :=
  [ ("nodesktop", Value.bool false),
    ("noFigureWindows", Value.bool false),
    ("nosplash", Value.bool false),
    ("sd", Value.bool false),
    ("useStartupFolderPref", Value.bool false),
    ("logfile", Value.bool false),
    ("jbd", Value.bool false),
    ("singleCompThread", Value.bool false),
    ("nouserjavapath", Value.bool false),
    ("softwareopengl", Value.bool false),
    ("nosoftwareopengl", Value.bool false),
    ("automation", Value.bool false),
    ("regserver", Value.bool false),
    ("unregserver", Value.bool false),
    ("wait", Value.bool false) ]

/-- The errors the module raises, each with its formatted message:
`ValueError` for an unknown flag name (spec name *InvalidOption*),
`ValueError` for a value of an unsupported type (spec name *InvalidValue*),
and `FileExistsError` for a missing executable (spec name
*ExecutableNotFound*). -/
inductive Err where
  | invalidOption (msg : String)
  | invalidValue (msg : String)
  | executableNotFound (msg : String)
deriving DecidableEq, Repr

/-- `try_catch_wrapper.format(s)` (line 82-83): wraps a MATLAB statement in a
try-catch block that prints the error identifier and message. -/
def try_catch_wrapper (s : String) : String :=
  "try, " ++ s ++
    ", catch err, fprintf('%s %s', err.identifier, err.message), end"

/-- `exit_wrapper.format(s)` (line 86): appends the exit statement. -/
def exit_wrapper (s : String) : String := s ++ ", exit"

/-- The state of a `MatlabRunner`: its `_exe_path` and `_options` fields. -/
structure MatlabRunner where
  exe_path : String
  options : Dict
deriving DecidableEq, Repr

/-- `MatlabRunner._build_options_parameter` (lines 104-126): one
command-line flag token from a key-value pair, `none` for a `False` value. -/
def build_options_parameter (k : String) (v : Value) :
    Except Err (Option String) :=
  if !((keys option_defaults).contains k) then
    Except.error (Err.invalidOption
      ("Key " ++ k ++ " is not a valid matlab.exe flag." ++
        "Valid flags are " ++ pyTupleRepr (keys option_defaults)))
  else
    match v with
    | Value.bool true => Except.ok (some ("-" ++ k))
    | Value.bool false => Except.ok none
    | Value.str s => Except.ok (some ("-" ++ k ++ " \"" ++ s ++ "\""))
    | Value.int n => Except.ok (some ("-" ++ k ++ " " ++ toString n))
    | Value.float rendering => Except.ok (some ("-" ++ k ++ " " ++ rendering))
    | Value.other => Except.error (Err.invalidValue
        ("Value for Key " ++ k ++ " is not a number or a string"))

/-- `MatlabRunner._build_options_string` (lines 128-140): build every token
from the stored options in stored order, drop the `None`s, join with `" "`. -/
def build_options_string (r : MatlabRunner) : Except Err String := do
  let params ← r.options.mapM (fun p => build_options_parameter p.1 p.2)
  return strJoin " " (params.filterMap id)

/-- `MatlabRunner._build_command_header` (lines 142-147). -/
def build_command_header (r : MatlabRunner) : Except Err String := do
  let s ← build_options_string r
  return r.exe_path ++ " " ++ s

/-- The `invalid_options` local of `set_options` (line 161): the supplied
keys whose names are outside the registry. (Python computes it as a set
difference whose iteration order is unspecified; it is modelled here in
supplied-key order.) -/
def invalid_keys (options : Dict) : List String :=
  (keys options).filter (fun k => !((keys option_defaults).contains k))

/-- `MatlabRunner.set_options` (lines 155-169): reject when any supplied key
is outside the registry, otherwise merge defaults, stored options and the
supplied options, in that precedence order. -/
def set_options (r : MatlabRunner) (options : Dict) : Except Err MatlabRunner :=
  if !(invalid_keys options).isEmpty then
    Except.error (Err.invalidOption
      ("Invalid options: " ++ pyListRepr (invalid_keys options)))
  else
    Except.ok { r with
      options := dictMerge (dictMerge option_defaults r.options) options }

/-- `MatlabRunner.__init__` (lines 94-102): store the path, start from an
empty options dict and call `set_options`. -/
def mk_runner (exe_path : String) (options : Dict) :
    Except Err MatlabRunner :=
  set_options { exe_path := exe_path, options := [] } options

/-- `MatlabRunner._assert_exe_exists` (lines 171-175), with the filesystem
probe `os.path.isfile` abstracted as `fs`. -/
def assert_exe_exists (fs : String → Bool) (r : MatlabRunner) :
    Except Err Unit :=
  if !(fs r.exe_path) then
    Except.error (Err.executableNotFound
      ("MATLAB executable at " ++ r.exe_path ++ " does not exist"))
  else Except.ok ()

/-- The `statement` argument of `execute`: a single string or a list of
statement strings. -/
inductive Statement where
  | str (s : String)
  | list (lines : List String)
deriving DecidableEq, Repr

/-- Lines 217-218 of `execute`: a list of statements is joined with `", "`
into one line; a single string is used as-is. -/
def normalize_statement : Statement → String
  | Statement.str s => s
  | Statement.list lines => strJoin ", " lines

/-- Lines 217-224 of `execute`: normalize the statement, then wrap it in the
try-catch template when `try_catch` is set, then append the exit statement
when `auto_exit` is set. -/
def final_statement (stmt : Statement) (try_catch auto_exit : Bool) : String :=
  let s1 := normalize_statement stmt
  let s2 := if try_catch then try_catch_wrapper s1 else s1
  if auto_exit then exit_wrapper s2 else s2

/-- `MatlabRunner.execute` (lines 177-228): assert the executable exists,
build the header, pick the run-mode flag, compose the final statement and the
full command string. The `Except.ok` payload is the command string handed to
`subprocess.call`; an `Except.error` result means `subprocess.call` was never
reached. -/
def execute (fs : String → Bool) (r : MatlabRunner) (stmt : Statement)
    (batch try_catch auto_exit : Bool) : Except Err String := do
  let _ ← assert_exe_exists fs r
  let header ← build_command_header r
  let run_option := if batch then "-batch" else "-r"
  return header ++ " " ++ run_option ++ " \"" ++
    final_statement stmt try_catch auto_exit ++ "\""

/-- Spec-side rendering of one flag token for a well-typed value (the
non-error cases of `build_options_parameter`), used to compare the stored
iteration order with the registry order. -/
def token_of_value (k : String) (v : Value) : Option String :=
  match v with
  | Value.bool true => some ("-" ++ k)
  | Value.bool false => none
  | Value.str s => some ("-" ++ k ++ " \"" ++ s ++ "\"")
  | Value.int n => some ("-" ++ k ++ " " ++ toString n)
  | Value.float rendering => some ("-" ++ k ++ " " ++ rendering)
  | Value.other => none

/-- Spec-side options string: iterate the registry keys in their canonical
declaration order, look each key up in the stored mapping, keep the non-null
tokens and join them with a single space. -/
def options_string_spec (opts : Dict) : String :=
  strJoin " " ((keys option_defaults).filterMap (fun k =>
    match dictGet opts k with
    | some v => token_of_value k v
    | none => none))

/-- `needle` occurs contiguously inside `hay`. -/
def strContains (hay needle : String) : Prop :=
  needle.data <:+: hay.data

instance (hay needle : String) : Decidable (strContains hay needle) :=
  List.decidableInfix needle.data hay.data

/-- A runner as built by `MatlabRunner("/bin/tool", nodesktop=True, sd="/work")`:
the registry defaults with `nodesktop` and `sd` overridden. -/
def runner_tool : MatlabRunner :=
  { exe_path := "/bin/tool",
    options :=
      [ ("nodesktop", Value.bool true),
        ("noFigureWindows", Value.bool false),
        ("nosplash", Value.bool false),
        ("sd", Value.str "/work"),
        ("useStartupFolderPref", Value.bool false),
        ("logfile", Value.bool false),
        ("jbd", Value.bool false),
        ("singleCompThread", Value.bool false),
        ("nouserjavapath", Value.bool false),
        ("softwareopengl", Value.bool false),
        ("nosoftwareopengl", Value.bool false),
        ("automation", Value.bool false),
        ("regserver", Value.bool false),
        ("unregserver", Value.bool false),
        ("wait", Value.bool false) ] }

/-- A freshly constructed runner, all flags at their defaults. -/
def runner_defaults : MatlabRunner :=
  { exe_path := "/x", options := option_defaults }

/-- `runner_defaults` after `set_options(nodesktop=True)`. -/
def runner_nodesktop : MatlabRunner :=
  { exe_path := "/x",
    options :=
      [ ("nodesktop", Value.bool true),
        ("noFigureWindows", Value.bool false),
        ("nosplash", Value.bool false),
        ("sd", Value.bool false),
        ("useStartupFolderPref", Value.bool false),
        ("logfile", Value.bool false),
        ("jbd", Value.bool false),
        ("singleCompThread", Value.bool false),
        ("nouserjavapath", Value.bool false),
        ("softwareopengl", Value.bool false),
        ("nosoftwareopengl", Value.bool false),
        ("automation", Value.bool false),
        ("regserver", Value.bool false),
        ("unregserver", Value.bool false),
        ("wait", Value.bool false) ] }

/-- `runner_nodesktop` after `set_options(sd="/work")`. -/
def runner_nodesktop_sd : MatlabRunner :=
  { exe_path := "/x",
    options :=
      [ ("nodesktop", Value.bool true),
        ("noFigureWindows", Value.bool false),
        ("nosplash", Value.bool false),
        ("sd", Value.str "/work"),
        ("useStartupFolderPref", Value.bool false),
        ("logfile", Value.bool false),
        ("jbd", Value.bool false),
        ("singleCompThread", Value.bool false),
        ("nouserjavapath", Value.bool false),
        ("softwareopengl", Value.bool false),
        ("nosoftwareopengl", Value.bool false),
        ("automation", Value.bool false),
        ("regserver", Value.bool false),
        ("unregserver", Value.bool false),
        ("wait", Value.bool false) ] }

/-! Association-list lemmas about `dictGet`, `dictMerge` and `keys`. -/

theorem contains_iff_mem (l : List String) (a : String) :
    l.contains a = true ↔ a ∈ l := List.elem_iff

theorem keys_cons (p : String × Value) (t : Dict) :
    keys (p :: t) = p.1 :: keys t := rfl

theorem mem_keys_iff_isSome (l : Dict) (k : String) :
    k ∈ keys l ↔ (dictGet l k).isSome := by
  induction l with
  | nil => simp [keys, dictGet]
  | cons p t ih =>
    rw [keys_cons, List.mem_cons]
    by_cases h : p.1 = k
    · simp [dictGet, h]
    · have h2 : ¬ k = p.1 := fun he => h he.symm
      simp [dictGet, h, h2, ih]

theorem dictGet_eq_none_of_not_mem (l : Dict) (k : String)
    (h : k ∉ keys l) : dictGet l k = none := by
  rcases hg : dictGet l k with _ | v
  · rfl
  · exact absurd ((mem_keys_iff_isSome l k).mpr (by simp [hg])) h

theorem dictGet_isSome_of_mem (l : Dict) (k : String)
    (h : k ∈ keys l) : (dictGet l k).isSome := (mem_keys_iff_isSome l k).mp h

theorem dictGet_mem (l : Dict) (k : String) (v : Value)
    (h : dictGet l k = some v) : (k, v) ∈ l := by
  induction l with
  | nil => simp [dictGet] at h
  | cons p t ih =>
    by_cases he : p.1 = k
    · simp only [dictGet, if_pos he, Option.some.injEq] at h
      subst he
      subst h
      exact List.mem_cons_self p t
    · simp only [dictGet, if_neg he] at h
      exact List.mem_cons_of_mem _ (ih h)

theorem dictGet_append (a b : Dict) (k : String) :
    dictGet (a ++ b) k = (dictGet a k).or (dictGet b k) := by
  induction a with
  | nil => simp [dictGet]
  | cons p t ih =>
    by_cases h : p.1 = k
    · simp [dictGet, h, Option.or]
    · simp [dictGet, h, ih]

theorem dictGet_map_getD (a b : Dict) (k : String) :
    dictGet (a.map (fun p => (p.1, (dictGet b p.1).getD p.2))) k =
      (dictGet a k).map (fun v => (dictGet b k).getD v) := by
  induction a with
  | nil => simp [dictGet]
  | cons p t ih =>
    by_cases h : p.1 = k
    · subst h
      simp [dictGet]
    · simp [dictGet, h, ih]

theorem dictGet_filter_keys (b : Dict) (ks : List String) (k : String) :
    dictGet (b.filter (fun p => !(ks.contains p.1))) k =
      if ks.contains k then none else dictGet b k := by
  simp only [List.elem_eq_mem]
  induction b with
  | nil => by_cases hc : k ∈ ks <;> simp [hc, dictGet]
  | cons p t ih =>
    simp only [List.filter_cons]
    by_cases he : p.1 = k
    · subst he
      by_cases hc : p.1 ∈ ks <;> simp [hc, dictGet, ih]
    · by_cases hc : p.1 ∈ ks <;> simp [hc, dictGet, he, ih]

theorem contains_keys_eq_isSome (a : Dict) (k : String) :
    (keys a).contains k = (dictGet a k).isSome := by
  rcases h : dictGet a k with _ | v
  · simp only [Option.isSome_none]
    rw [← Bool.not_eq_true]
    intro hc
    have := dictGet_isSome_of_mem a k ((contains_iff_mem _ _).mp hc)
    rw [h] at this
    simp at this
  · simp only [Option.isSome_some]
    exact (contains_iff_mem _ _).mpr ((mem_keys_iff_isSome a k).mpr (by simp [h]))

theorem dictGet_dictMerge (a b : Dict) (k : String) :
    dictGet (dictMerge a b) k = (dictGet b k).or (dictGet a k) := by
  unfold dictMerge
  rw [dictGet_append, dictGet_map_getD, dictGet_filter_keys,
    contains_keys_eq_isSome]
  rcases ha : dictGet a k with _ | v <;> rcases hb : dictGet b k with _ | w <;>
    simp [Option.or]

theorem keys_append (a b : Dict) : keys (a ++ b) = keys a ++ keys b := by
  simp [keys]

theorem keys_map_getD (a b : Dict) :
    keys (a.map (fun p => (p.1, (dictGet b p.1).getD p.2))) = keys a := by
  simp [keys, List.map_map, Function.comp]

/-! Lemmas about `set_options`. -/

theorem invalid_keys_eq_nil_iff (options : Dict) :
    invalid_keys options = [] ↔
      ∀ k ∈ keys options, k ∈ keys option_defaults := by
  simp [invalid_keys, List.filter_eq_nil_iff]

theorem set_options_ok_iff (r : MatlabRunner) (o : Dict) (r' : MatlabRunner) :
    set_options r o = Except.ok r' ↔
      invalid_keys o = [] ∧
        r' = { r with
          options := dictMerge (dictMerge option_defaults r.options) o } := by
  by_cases hc : invalid_keys o = []
  · rw [set_options, hc]
    simp only [List.isEmpty_nil, Bool.not_true]
    rw [if_neg (by simp), Except.ok.injEq]
    constructor
    · intro h
      exact ⟨by trivial, h.symm⟩
    · rintro ⟨-, h⟩
      exact h.symm
  · rcases hne : invalid_keys o with _ | ⟨a, t⟩
    · exact absurd hne hc
    · rw [set_options, hne]
      simp

theorem set_options_error_of_invalid (r : MatlabRunner) (o : Dict)
    (h : invalid_keys o ≠ []) :
    set_options r o = Except.error (Err.invalidOption
      ("Invalid options: " ++ pyListRepr (invalid_keys o))) := by
  rcases hne : invalid_keys o with _ | ⟨a, t⟩
  · exact absurd hne h
  · rw [set_options, hne]
    rfl

theorem set_options_get (r : MatlabRunner) (o : Dict) (r' : MatlabRunner)
    (h : set_options r o = Except.ok r') (k : String) :
    dictGet r'.options k =
      (dictGet o k).or ((dictGet r.options k).or
        (dictGet option_defaults k)) := by
  obtain ⟨-, hr⟩ := (set_options_ok_iff r o r').mp h
  rw [hr]
  rw [dictGet_dictMerge, dictGet_dictMerge]

theorem keys_set_options (r : MatlabRunner) (o : Dict) (r' : MatlabRunner)
    (hsub : ∀ k ∈ keys r.options, k ∈ keys option_defaults)
    (h : set_options r o = Except.ok r') :
    keys r'.options = keys option_defaults := by
  obtain ⟨hinv, hr⟩ := (set_options_ok_iff r o r').mp h
  have ho : ∀ k ∈ keys o, k ∈ keys option_defaults :=
    (invalid_keys_eq_nil_iff o).mp hinv
  have hmerge : ∀ (a b : Dict), (∀ k ∈ keys b, k ∈ keys a) →
      keys (dictMerge a b) = keys a := by
    intro a b hb
    rw [dictMerge, keys_append, keys_map_getD]
    have : b.filter (fun p => !((keys a).contains p.1)) = [] := by
      rw [List.filter_eq_nil_iff]
      intro p hp
      have : p.1 ∈ keys a := hb p.1 (List.mem_map_of_mem Prod.fst hp)
      simp [this]
    rw [this]
    simp [keys]
  rw [hr]
  have h1 : keys (dictMerge option_defaults r.options) = keys option_defaults :=
    hmerge _ _ hsub
  rw [hmerge _ _ (fun k hk => by rw [h1]; exact ho k hk), h1]

/-! Generic lemmas: `mapM` over `Except`, `filterMap`, and substring facts
about `strJoin`. -/

theorem mapM_ok_of_forall {α β : Type} (l : List α) (g : α → Except Err β)
    (f : α → β) (h : ∀ a ∈ l, g a = Except.ok (f a)) :
    l.mapM g = Except.ok (l.map f) := by
  induction l with
  | nil => rfl
  | cons a t ih =>
    rw [List.mapM_cons, h a (List.mem_cons_self a t),
      ih (fun x hx => h x (List.mem_cons_of_mem a hx))]
    rfl

theorem filterMap_congr_mem {α β : Type} (l : List α) (f g : α → Option β)
    (h : ∀ a ∈ l, f a = g a) : l.filterMap f = l.filterMap g := by
  induction l with
  | nil => rfl
  | cons a t ih =>
    rw [List.filterMap_cons, List.filterMap_cons, h a (List.mem_cons_self a t),
      ih (fun x hx => h x (List.mem_cons_of_mem a hx))]

theorem filterMap_keys_lookup (l : Dict) (hnd : (keys l).Nodup)
    (f : String → Value → Option String) :
    (keys l).filterMap (fun k => match dictGet l k with
      | some v => f k v
      | none => none) = l.filterMap (fun p => f p.1 p.2) := by
  induction l with
  | nil => rfl
  | cons p t ih =>
    rw [keys_cons] at hnd ⊢
    have hnm : p.1 ∉ keys t := (List.nodup_cons.mp hnd).1
    have hnd2 : (keys t).Nodup := (List.nodup_cons.mp hnd).2
    rw [List.filterMap_cons, List.filterMap_cons]
    have hhead : dictGet (p :: t) p.1 = some p.2 := by simp [dictGet]
    have htail : (keys t).filterMap (fun k => match dictGet (p :: t) k with
        | some v => f k v
        | none => none) =
        (keys t).filterMap (fun k => match dictGet t k with
        | some v => f k v
        | none => none) := by
      apply filterMap_congr_mem
      intro k hk
      have hne : ¬ p.1 = k := fun he => hnm (he ▸ hk)
      simp [dictGet, hne]
    rw [hhead, htail, ih hnd2]

theorem strJoin_mem_infix (sep : String) (xs : List String) (x : String)
    (h : x ∈ xs) : x.data <:+: (strJoin sep xs).data := by
  induction xs with
  | nil => cases h
  | cons a t ih =>
    rcases List.mem_cons.mp h with he | ht
    · subst he
      cases t with
      | nil => exact List.infix_refl _
      | cons b t2 =>
        show x.data <:+: (x ++ sep ++ strJoin sep (b :: t2)).data
        rw [String.data_append, String.data_append, List.append_assoc]
        exact (List.prefix_append _ _).isInfix
    · cases t with
      | nil => cases ht
      | cons b t2 =>
        have hx := ih ht
        show x.data <:+: (a ++ sep ++ strJoin sep (b :: t2)).data
        rw [String.data_append]
        exact hx.trans (List.suffix_append _ _).isInfix

theorem strContains_invalid_message (l : List String) (k : String)
    (h : k ∈ l) : strContains ("Invalid options: " ++ pyListRepr l) k := by
  unfold strContains
  rw [String.data_append]
  have h1 : (pyStrRepr k).data <:+: (strJoin ", " (l.map pyStrRepr)).data :=
    strJoin_mem_infix _ _ _ (List.mem_map_of_mem pyStrRepr h)
  have h2 : k.data <:+: (pyStrRepr k).data := by
    refine ⟨"'".data, "'".data, ?_⟩
    show "'".data ++ k.data ++ "'".data = (("'" ++ k) ++ "'").data
    rw [String.data_append, String.data_append]
  have h3 : (strJoin ", " (l.map pyStrRepr)).data <:+: (pyListRepr l).data := by
    unfold pyListRepr
    rw [String.data_append, String.data_append]
    exact ((List.suffix_append _ _).isInfix).trans
      (List.prefix_append _ _).isInfix
  exact ((h2.trans h1).trans h3).trans (List.suffix_append _ _).isInfix

theorem build_options_parameter_ok (k : String) (v : Value)
    (hk : k ∈ keys option_defaults) (hv : v ≠ Value.other) :
    build_options_parameter k v = Except.ok (token_of_value k v) := by
  have hc : (keys option_defaults).contains k = true :=
    (contains_iff_mem _ _).mpr hk
  unfold build_options_parameter
  rw [hc]
  cases v with
  | bool b => cases b <;> rfl
  | str s => rfl
  | int n => rfl
  | float rendering => rfl
  | other => exact absurd rfl hv

theorem build_options_string_eq (r : MatlabRunner)
    (hvalid : ∀ p ∈ r.options, p.1 ∈ keys option_defaults)
    (hwt : ∀ p ∈ r.options, p.2 ≠ Value.other) :
    build_options_string r = Except.ok
      (strJoin " " (r.options.filterMap (fun p => token_of_value p.1 p.2))) := by
  have hm : r.options.mapM (fun p => build_options_parameter p.1 p.2)
      = Except.ok (r.options.map (fun p => token_of_value p.1 p.2)) :=
    mapM_ok_of_forall _ _ _
      (fun p hp => build_options_parameter_ok p.1 p.2 (hvalid p hp) (hwt p hp))
  unfold build_options_string
  rw [hm]
  show Except.ok _ = Except.ok _
  rw [Except.ok.injEq]
  simp [List.filterMap_map, Function.comp]

theorem invalid_keys_ne_nil (o : Dict)
    (h : ∃ k ∈ keys o, k ∉ keys option_defaults) : invalid_keys o ≠ [] := by
  rcases h with ⟨k, hk, hnm⟩
  intro hnil
  exact hnm ((invalid_keys_eq_nil_iff o).mp hnil k hk)

/-! The claims. -/

/-- C1: for a runner with executable path `/bin/tool` and stored options
`{nodesktop: true, sd: "/work"}` (all other flags at their `False`
defaults), `execute` with statement `"run"`, `batch=False`,
`try_catch=False`, `auto_exit=False` composes exactly the command
`/bin/tool -nodesktop -sd "/work" -r "run"`: header, then run-mode token,
then the double-quoted statement. -/
theorem execute_composes_full_command :
    mk_runner "/bin/tool"
        [("nodesktop", Value.bool true), ("sd", Value.str "/work")] =
      Except.ok runner_tool ∧
    execute (fun p => p == "/bin/tool") runner_tool (Statement.str "run")
        false false false =
      Except.ok "/bin/tool -nodesktop -sd \"/work\" -r \"run\"" := by
  exact ⟨rfl, rfl⟩

/-- C2: for a runner whose stored options mapping has exactly the registry's
keys in the registry's declaration order (the invariant every runner built
through the API satisfies) and whose values are of the declared types,
`build_options_string` returns the registry-order join of the tokens of the
flags whose value is not `False`, separated by single spaces, and returns
the empty string when every stored value is `False`. -/
theorem build_options_string_registry_order (r : MatlabRunner)
    (hkeys : keys r.options = keys option_defaults)
    (hwt : ∀ p ∈ r.options, p.2 ≠ Value.other) :
    build_options_string r = Except.ok (options_string_spec r.options) ∧
      ((∀ p ∈ r.options, p.2 = Value.bool false) →
        build_options_string r = Except.ok "") := by
  have hvalid : ∀ p ∈ r.options, p.1 ∈ keys option_defaults := by
    intro p hp
    rw [← hkeys]
    exact List.mem_map_of_mem Prod.fst hp
  have hmain : build_options_string r =
      Except.ok (options_string_spec r.options) := by
    rw [build_options_string_eq r hvalid hwt]
    unfold options_string_spec
    rw [← hkeys,
      filterMap_keys_lookup r.options (by rw [hkeys]; decide) token_of_value]
  refine ⟨hmain, fun hall => ?_⟩
  rw [build_options_string_eq r hvalid hwt]
  have hnil : r.options.filterMap (fun p => token_of_value p.1 p.2) = [] := by
    rw [List.filterMap_eq_nil_iff]
    intro p hp
    rw [hall p hp]
    rfl
  rw [hnil]
  rfl

theorem build_options_string_registry_order_witness :
    build_options_string runner_tool =
      Except.ok (options_string_spec runner_tool.options) :=
  (build_options_string_registry_order runner_tool (by decide) (by decide)).1

/-- C3: for a registry-valid flag name `k`, `_build_options_parameter`
returns no token for `False`, the bare token `-k` for `True`, the token
`-k "v"` for a string value (double-quoted verbatim), the unquoted token
`-k v` for an integer or float value, and an *InvalidValue* error whose
message names `k` for a value of any other type. -/
theorem build_flag_token_cases (k : String) (hk : k ∈ keys option_defaults) :
    build_options_parameter k (Value.bool false) = Except.ok none ∧
    build_options_parameter k (Value.bool true) =
      Except.ok (some ("-" ++ k)) ∧
    (∀ s, build_options_parameter k (Value.str s) =
      Except.ok (some ("-" ++ k ++ " \"" ++ s ++ "\""))) ∧
    (∀ n : Int, build_options_parameter k (Value.int n) =
      Except.ok (some ("-" ++ k ++ " " ++ toString n))) ∧
    (∀ rendering : String,
      build_options_parameter k (Value.float rendering) =
        Except.ok (some ("-" ++ k ++ " " ++ rendering))) ∧
    (∃ m, build_options_parameter k Value.other =
      Except.error (Err.invalidValue m) ∧ strContains m k) := by
  have hc : (keys option_defaults).contains k = true :=
    (contains_iff_mem _ _).mpr hk
  refine ⟨build_options_parameter_ok k _ hk (by simp),
    build_options_parameter_ok k _ hk (by simp),
    fun s => build_options_parameter_ok k _ hk (by simp),
    fun n => build_options_parameter_ok k _ hk (by simp),
    fun rendering => build_options_parameter_ok k _ hk (by simp),
    ⟨"Value for Key " ++ k ++ " is not a number or a string", ?_, ?_⟩⟩
  · unfold build_options_parameter
    rw [hc]
    rfl
  · refine ⟨"Value for Key ".data, " is not a number or a string".data, ?_⟩
    show _ = (("Value for Key " ++ k) ++ " is not a number or a string").data
    rw [String.data_append, String.data_append]

theorem build_flag_token_cases_witness :
    build_options_parameter "nodesktop" (Value.bool true) =
      Except.ok (some ("-" ++ "nodesktop")) :=
  (build_flag_token_cases "nodesktop" (by decide)).2.1

/-- C4: try-catch wrapping is applied around the normalized statement first
and the exit instruction is appended afterwards, outside the try-catch
scope; on statement `"x"` with both flags set the final statement is
exactly the try-catch template around `x` followed by `, exit`. -/
theorem try_catch_wrapped_before_exit :
    (∀ s, final_statement (Statement.str s) true true =
      exit_wrapper (try_catch_wrapper s)) ∧
    final_statement (Statement.str "x") true true =
      "try, x, catch err, fprintf('%s %s', err.identifier, err.message), end, exit" := by
  exact ⟨fun s => rfl, rfl⟩

/-- C5: `set_options` merges cumulatively with precedence
defaults < previously stored < newly supplied: after two successful calls,
every key of the second call holds the second call's value, every key only
in the first call keeps the first call's value, and every key in neither
call keeps the value it had before both calls. -/
theorem set_options_cumulative (r : MatlabRunner)
    (hkeys : keys r.options = keys option_defaults)
    (o1 o2 : Dict) (r1 r2 : MatlabRunner)
    (h1 : set_options r o1 = Except.ok r1)
    (h2 : set_options r1 o2 = Except.ok r2) :
    (∀ k, k ∈ keys o2 → dictGet r2.options k = dictGet o2 k) ∧
    (∀ k, k ∈ keys o1 → k ∉ keys o2 →
      dictGet r2.options k = dictGet o1 k) ∧
    (∀ k, k ∉ keys o1 → k ∉ keys o2 →
      dictGet r2.options k = dictGet r.options k) := by
  have g1 := set_options_get r o1 r1 h1
  have g2 := set_options_get r1 o2 r2 h2
  refine ⟨?_, ?_, ?_⟩
  · intro k hk
    rcases Option.isSome_iff_exists.mp (dictGet_isSome_of_mem o2 k hk)
      with ⟨v, hv⟩
    rw [g2 k, hv]
    rfl
  · intro k hk1 hk2
    have hn2 : dictGet o2 k = none := dictGet_eq_none_of_not_mem o2 k hk2
    rcases Option.isSome_iff_exists.mp (dictGet_isSome_of_mem o1 k hk1)
      with ⟨v, hv⟩
    rw [g2 k, hn2, g1 k, hv]
    rfl
  · intro k hk1 hk2
    have hn1 : dictGet o1 k = none := dictGet_eq_none_of_not_mem o1 k hk1
    have hn2 : dictGet o2 k = none := dictGet_eq_none_of_not_mem o2 k hk2
    rw [g2 k, hn2, g1 k, hn1]
    by_cases hm : k ∈ keys option_defaults
    · rcases Option.isSome_iff_exists.mp
        (dictGet_isSome_of_mem r.options k (by rw [hkeys]; exact hm))
        with ⟨v, hv⟩
      rw [hv]
      rfl
    · rw [dictGet_eq_none_of_not_mem option_defaults k hm,
        dictGet_eq_none_of_not_mem r.options k (by rw [hkeys]; exact hm)]
      rfl

theorem set_options_cumulative_witness :
    dictGet runner_nodesktop_sd.options "nodesktop" =
      dictGet [("nodesktop", Value.bool true)] "nodesktop" :=
  (set_options_cumulative runner_defaults rfl
    [("nodesktop", Value.bool true)] [("sd", Value.str "/work")]
    runner_nodesktop runner_nodesktop_sd rfl rfl).2.1
    "nodesktop" (by decide) (by decide)

/-- C6 counterexample: the claim says the *InvalidOption* message of
`set_options` also contains the full list of valid flag names; on the
concrete call `set_options(foo=True)` the raised message is exactly
`Invalid options: ['foo']`, which does not contain the valid flag name
`nodesktop` (nor, a fortiori, the full valid list). -/
theorem set_options_message_lacks_valid_list :
    set_options runner_defaults [("foo", Value.bool true)] =
      Except.error (Err.invalidOption "Invalid options: ['foo']") ∧
    ¬ strContains "Invalid options: ['foo']" "nodesktop" := by
  exact ⟨rfl, by decide⟩

/-- C6 (amended): for every options mapping containing at least one key
outside the registry, `set_options` fails with an *InvalidOption* error
whose message identifies every offending key (all invalid keys at once);
the message does not include the list of valid flag names — only the
token-building error of `_build_options_parameter` includes that list. -/
theorem set_options_invalid_reports_all_keys (r : MatlabRunner) (o : Dict)
    (h : ∃ k ∈ keys o, k ∉ keys option_defaults) :
    ∃ m, set_options r o = Except.error (Err.invalidOption m) ∧
      ∀ k ∈ keys o, k ∉ keys option_defaults → strContains m k := by
  refine ⟨_, set_options_error_of_invalid r o (invalid_keys_ne_nil o h), ?_⟩
  intro k hk hnm
  apply strContains_invalid_message
  rw [invalid_keys, List.mem_filter]
  refine ⟨hk, ?_⟩
  simp [hnm]

theorem set_options_invalid_reports_all_keys_witness :
    ∃ m, set_options runner_defaults
        [("foo", Value.bool true), ("bar", Value.int 3)] =
      Except.error (Err.invalidOption m) ∧
      ∀ k ∈ keys [("foo", Value.bool true), ("bar", Value.int 3)],
        k ∉ keys option_defaults → strContains m k :=
  set_options_invalid_reports_all_keys runner_defaults
    [("foo", Value.bool true), ("bar", Value.int 3)] (by decide)

/-- C7: `set_options` is atomic on failure: whenever the supplied mapping
contains any unrecognized key, the call raises *InvalidOption* and never
produces an updated runner, so none of the valid keys supplied in the same
call are applied and the stored options are left unchanged. -/
theorem set_options_atomic_on_failure (r : MatlabRunner) (o : Dict)
    (h : ∃ k ∈ keys o, k ∉ keys option_defaults) :
    (∃ m, set_options r o = Except.error (Err.invalidOption m)) ∧
      ∀ r2, set_options r o ≠ Except.ok r2 := by
  refine ⟨⟨_, set_options_error_of_invalid r o (invalid_keys_ne_nil o h)⟩, ?_⟩
  intro r2 hok
  rw [set_options_error_of_invalid r o (invalid_keys_ne_nil o h)] at hok
  cases hok

theorem set_options_atomic_on_failure_witness :
    (∃ m, set_options runner_defaults
        [("foo", Value.bool true), ("sd", Value.str "/w")] =
      Except.error (Err.invalidOption m)) ∧
      ∀ r2, set_options runner_defaults
        [("foo", Value.bool true), ("sd", Value.str "/w")] ≠
          Except.ok r2 :=
  set_options_atomic_on_failure runner_defaults
    [("foo", Value.bool true), ("sd", Value.str "/w")] (by decide)

/-- C8: for every runner whose stored executable path the filesystem does
not recognise as an existing file, `execute` fails with
*ExecutableNotFound* for any statement and any flags, and no command string
is handed to `subprocess.call` (the `Except.ok` payload that models that
hand-off is never produced). The check is part of `execute` itself:
`mk_runner` and `set_options` take no filesystem argument at all, mirroring
the source, where only `execute` calls `isfile`. -/
theorem execute_missing_executable (fs : String → Bool) (r : MatlabRunner)
    (stmt : Statement) (batch try_catch auto_exit : Bool)
    (h : fs r.exe_path = false) :
    execute fs r stmt batch try_catch auto_exit =
      Except.error (Err.executableNotFound
        ("MATLAB executable at " ++ r.exe_path ++ " does not exist")) := by
  unfold execute assert_exe_exists
  rw [h]
  rfl

theorem execute_missing_executable_witness :
    execute (fun _ => false) runner_defaults (Statement.str "go")
        false false false =
      Except.error (Err.executableNotFound
        ("MATLAB executable at " ++ "/x" ++ " does not exist")) :=
  execute_missing_executable (fun _ => false) runner_defaults
    (Statement.str "go") false false false rfl

/-- C9: a statement given as a sequence of lines is joined with `", "` into
one line before any wrapping, while a single string is used as-is; the
sequence `["a=1", "b"]` with no wrapping yields exactly `a=1, b`. -/
theorem statement_sequence_joined (ls : List String) (s : String)
    (try_catch auto_exit : Bool) :
    normalize_statement (Statement.list ls) = strJoin ", " ls ∧
    normalize_statement (Statement.str s) = s ∧
    final_statement (Statement.list ls) try_catch auto_exit =
      final_statement (Statement.str (strJoin ", " ls))
        try_catch auto_exit ∧
    final_statement (Statement.list ["a=1", "b"]) false false = "a=1, b" := by
  exact ⟨rfl, rfl, rfl, rfl⟩

/-- C10: after construction and after every successful `set_options` call
the stored options mapping has exactly the registry's flag names as keys,
in the registry's declaration order; and `set_options` validates only keys,
not value types — a value of any other type is stored unchanged and is
rejected only later by `_build_options_parameter`. -/
theorem options_mapping_invariant :
    (∀ r o r2, (∀ k ∈ keys r.options, k ∈ keys option_defaults) →
      set_options r o = Except.ok r2 →
      keys r2.options = keys option_defaults) ∧
    (∀ p o r2, mk_runner p o = Except.ok r2 →
      keys r2.options = keys option_defaults) ∧
    (∀ r k v, k ∈ keys option_defaults →
      ∃ r2, set_options r [(k, v)] = Except.ok r2 ∧
        dictGet r2.options k = some v) ∧
    (∀ k, k ∈ keys option_defaults →
      ∃ m, build_options_parameter k Value.other =
        Except.error (Err.invalidValue m)) := by
  refine ⟨?_, ?_, ?_, ?_⟩
  · intro r o r2 hsub h
    exact keys_set_options r o r2 hsub h
  · intro p o r2 h
    refine keys_set_options _ o r2 ?_ h
    intro k hk
    simp [keys] at hk
  · intro r k v hk
    have hinv : invalid_keys [(k, v)] = [] := by
      rw [invalid_keys_eq_nil_iff]
      intro x hx
      simp [keys] at hx
      subst hx
      exact hk
    have hok := (set_options_ok_iff r [(k, v)]
      { r with options :=
          dictMerge (dictMerge option_defaults r.options) [(k, v)] }).mpr
      ⟨hinv, rfl⟩
    refine ⟨_, hok, ?_⟩
    rw [set_options_get r [(k, v)] _ hok k]
    simp [dictGet, Option.or]
  · intro k hk
    have hc : (keys option_defaults).contains k = true :=
      (contains_iff_mem _ _).mpr hk
    refine ⟨"Value for Key " ++ k ++ " is not a number or a string", ?_⟩
    unfold build_options_parameter
    rw [hc]
    rfl

end Matrun
